import Mathlib

/-!
Verification of src/scripts/setup_python_project.py.

The script is a one-shot scaffolding tool: it derives a project name from the
current directory and a caller-supplied string, provisions a virtual
environment, generates a source layout, and initializes a git repository with
optional GitHub remote creation.  This file gives a shallow embedding of the
script: the pure name derivation becomes a pure function, and every effectful
function becomes an explicit state-passing function over a World record that
tracks the filesystem, the printed lines and the attempted external commands.
Python exception flow (subprocess.CalledProcessError on a non-zero exit with
check=True, FileNotFoundError on an absent executable) is embedded as an
explicit result type; except clauses become matches on that type, catching
exactly the constructors that the corresponding Python except clause catches.
-/

/-- Outcome of attempting to launch one external command: the executable may be
absent from PATH (Python subprocess then raises FileNotFoundError), or it runs
and exits with a code, producing captured stdout. -/
inductive CmdOutcome where
  | absent : CmdOutcome
  | exits : Nat → String → CmdOutcome
deriving DecidableEq

/-- Behaviour of the external world for one run: what each command line does. -/
abbrev Env := List String → CmdOutcome

/-- The Python exceptions the script can raise or catch. -/
inductive PyErr where
  | fileNotFound : List String → PyErr
  | calledProcess : List String → Nat → PyErr
  | fileExists : String → PyErr
deriving DecidableEq

/-- Filesystem state: the set of existing directories and the file contents. -/
structure FS where
  dirs : List String
  files : String → Option String

/-- Observable state of one run: filesystem, stdout lines in order, and the
external commands attempted in order. -/
structure World where
  fs : FS
  prints : List String
  cmds : List (List String)

/-- The empty state at the start of a run. -/
def w0 : World := ⟨⟨[], fun _ => none⟩, [], []⟩

/-- Result of a Python computation: a normal value or an uncaught exception,
in both cases together with the state reached. -/
inductive PyResult (α : Type) where
  | ok : α → World → PyResult α
  | raised : PyErr → World → PyResult α

/-- Sequencing with exception propagation. -/
def PyResult.bind {α β : Type} (r : PyResult α) (f : α → World → PyResult β) : PyResult β :=
  match r with
  | .ok a w => f a w
  | .raised e w => .raised e w

/-- print(s): append one line to stdout. -/
def printLine (s : String) (w : World) : World :=
  { w with prints := w.prints ++ [s] }

/-- A sequence of print statements. -/
def printLines (ls : List String) (w : World) : World :=
  ls.foldl (fun w s => printLine s w) w

/-- subprocess.run(cmd, check=True): the attempt is recorded; an absent
executable raises FileNotFoundError, a non-zero exit raises
CalledProcessError; on success the captured stdout is returned. -/
def runCheck (env : Env) (cmd : List String) (w : World) : PyResult String :=
  let w' := { w with cmds := w.cmds ++ [cmd] }
  match env cmd with
  | .absent => .raised (.fileNotFound cmd) w'
  | .exits 0 out => .ok out w'
  | .exits (n + 1) _ => .raised (.calledProcess cmd (n + 1)) w'

/-- open(path, "w") followed by writes: overwrite the file with the content. -/
def writeFile (path content : String) (w : World) : World :=
  { w with fs := { w.fs with files := fun q => if q = path then some content else w.fs.files q } }

/-- Split a path into its slash-separated components (structural version of
str.split so that it evaluates inside the kernel). -/
def splitSlashAux : List Char → List Char → List String
  | [], cur => [String.mk cur.reverse]
  | c :: rest, cur =>
    if c = '/' then String.mk cur.reverse :: splitSlashAux rest []
    else splitSlashAux rest (c :: cur)

/-- The slash-separated components of a relative path. -/
def splitSlash (s : String) : List String := splitSlashAux s.data []

/-- The chain of ancestor paths that os.makedirs creates for a relative path,
e.g. the components of src/pkg give [src, src/pkg]. -/
def parentChainAux : List String → String → List String
  | [], _ => []
  | comp :: rest, sofar =>
    let cur := if sofar = "" then comp else sofar ++ "/" ++ comp
    cur :: parentChainAux rest cur

/-- All directories created by os.makedirs for a relative path. -/
def parentChain (p : String) : List String := parentChainAux (splitSlash p) ""

/-- Record a directory if it does not exist yet. -/
def addDir (fs : FS) (d : String) : FS :=
  if d ∈ fs.dirs then fs else { fs with dirs := fs.dirs ++ [d] }

/-- os.makedirs(path, exist_ok): creates the directory and its ancestors;
without exist_ok an already-existing target raises FileExistsError. -/
def makedirs (path : String) (exist_ok : Bool) (w : World) : PyResult Unit :=
  if path ∈ w.fs.dirs ∧ exist_ok = false then
    .raised (.fileExists path) w
  else
    .ok () { w with fs := (parentChain path).foldl addDir w.fs }

/-- str.lower as the script applies it to a directory name; Char.toLower
lowercases exactly the ASCII uppercase letters, which models Python on the
ASCII directory names the script documents. -/
def pyToLower (c : Char) : Char := Char.toLower c

/-- A character matched by the regex class of whitespace or underscore used in
get_project_name (ASCII whitespace: space, tab, newline, vertical tab, form
feed, carriage return). -/
def isSepChar (c : Char) : Bool :=
  c.toNat == 32 || c.toNat == 9 || c.toNat == 10 || c.toNat == 11 || c.toNat == 12 || c.toNat == 13 || c.toNat == 95

/-- re.sub applied to the class run: each maximal run of separator characters
becomes a single hyphen.  The Bool records whether we are inside such a run. -/
def collapseAux : Bool → List Char → List Char
  | _, [] => []
  | inRun, c :: rest =>
    if isSepChar c then
      if inRun then collapseAux true rest
      else '-' :: collapseAux true rest
    else c :: collapseAux false rest

/-- The whole substitution, starting outside any separator run. -/
def collapse (l : List Char) : List Char := collapseAux false l

/-- get_project_name from the script: prefix the argument, then a hyphen, then
the lowercased directory base name with every maximal whitespace/underscore
run replaced by one hyphen.  The base name of the current directory is passed
explicitly instead of being read from the process state. -/
def get_project_name (pfx : String) (cwdBase : String) : String :=
  String.mk (pfx.data ++ '-' :: collapse (cwdBase.data.map pyToLower))

/-- str.replace of hyphens by underscores, used for the package module name. -/
def hyphenToUnderscore (s : String) : String :=
  String.mk (s.data.map (fun c => if c = '-' then '_' else c))

/-- A character of the regex class of lowercase letters, digits and hyphen. -/
def isNameChar (c : Char) : Bool :=
  (97 ≤ c.toNat && c.toNat ≤ 122) || (48 ≤ c.toNat && c.toNat ≤ 57) || c.toNat == 45

/-- The anchored pattern of the spec: the literal pfx, then a hyphen, then a
nonempty string over lowercase letters, digits and hyphens. -/
def matchesNamePattern (pfx s : String) : Bool :=
  decide (s.data.take (pfx.data.length + 1) = pfx.data ++ ['-']) &&
  decide (s.data.drop (pfx.data.length + 1) ≠ []) &&
  (s.data.drop (pfx.data.length + 1)).all isNameChar

/-- No two adjacent hyphens occur in the character list. -/
def noAdjHyphens : List Char → Bool
  | [] => true
  | [_] => true
  | a :: b :: rest => !(a == '-' && b == '-') && noAdjHyphens (b :: rest)

/-- A directory-name character that the spec pattern can accept after
lowercasing and collapsing: ASCII letters, digits, hyphen, or a
whitespace/underscore separator. -/
def goodChar (c : Char) : Bool :=
  (97 ≤ c.toNat && c.toNat ≤ 122) || (65 ≤ c.toNat && c.toNat ≤ 90) ||
    (48 ≤ c.toNat && c.toNat ≤ 57) || c.toNat == 45 || isSepChar c

theorem toLower_toNat_of_upper (c : Char) (h : 65 ≤ c.toNat ∧ c.toNat ≤ 90) :
    (Char.toLower c).toNat = c.toNat + 32 := by
  unfold Char.toLower
  simp only []
  rw [if_pos ⟨h.1, h.2⟩]
  unfold Char.ofNat
  rw [dif_pos (by unfold Nat.isValidChar; omega)]
  rfl

theorem toLower_eq_self (c : Char) (h : ¬ (65 ≤ c.toNat ∧ c.toNat ≤ 90)) :
    Char.toLower c = c := by
  unfold Char.toLower
  simp only []
  rw [if_neg]
  omega

theorem pyToLower_good (c : Char) (h : goodChar c = true) :
    (isNameChar (pyToLower c) || isSepChar (pyToLower c)) = true := by
  unfold goodChar isSepChar at h
  unfold pyToLower isNameChar isSepChar
  by_cases hu : 65 ≤ c.toNat ∧ c.toNat ≤ 90
  · rw [toLower_toNat_of_upper c hu]
    simp only [Bool.or_eq_true, Bool.and_eq_true, decide_eq_true_eq, beq_iff_eq] at h ⊢
    omega
  · rw [toLower_eq_self c hu]
    simp only [Bool.or_eq_true, Bool.and_eq_true, decide_eq_true_eq, beq_iff_eq] at h ⊢
    omega

theorem pyToLower_hyphen (c : Char) (h : c.toNat ≠ 45) : (pyToLower c).toNat ≠ 45 := by
  unfold pyToLower
  by_cases hu : 65 ≤ c.toNat ∧ c.toNat ≤ 90
  · have ht := toLower_toNat_of_upper c hu
    omega
  · rw [toLower_eq_self c hu]
    exact h

theorem collapseAux_cons_sep (b : Bool) (a : Char) (l : List Char) (hs : isSepChar a = true) :
    collapseAux b (a :: l) = (if b then [] else ['-']) ++ collapseAux true l := by
  cases b <;> simp [collapseAux, hs]

theorem collapseAux_cons_nonsep (b : Bool) (a : Char) (l : List Char) (hs : isSepChar a = false) :
    collapseAux b (a :: l) = a :: collapseAux false l := by
  cases b <;> simp [collapseAux, hs]

theorem noAdjHyphens_cons2 (a b : Char) (l : List Char) :
    noAdjHyphens (a :: b :: l) = (!(a == '-' && b == '-') && noAdjHyphens (b :: l)) := rfl

theorem collapseAux_ne_nil (c : Char) (rest : List Char) :
    collapseAux false (c :: rest) ≠ [] := by
  by_cases h : isSepChar c = true
  · rw [collapseAux_cons_sep false c rest h]
    simp
  · rw [collapseAux_cons_nonsep false c rest (by simpa using h)]
    simp

theorem collapseAux_all_nameChar (l : List Char) (b : Bool)
    (h : ∀ c ∈ l, (isNameChar c || isSepChar c) = true) :
    ∀ c ∈ collapseAux b l, isNameChar c = true := by
  induction l generalizing b with
  | nil => intro c hc; simp [collapse, collapseAux] at hc
  | cons a rest ih =>
    intro c hc
    have ha := h a (List.mem_cons_self a rest)
    have hrest : ∀ c ∈ rest, (isNameChar c || isSepChar c) = true :=
      fun c hc => h c (List.mem_cons_of_mem a hc)
    by_cases hs : isSepChar a = true
    · rw [collapseAux_cons_sep b a rest hs] at hc
      cases b with
      | true =>
        rw [if_pos rfl, List.nil_append] at hc
        exact ih true hrest c hc
      | false =>
        rw [if_neg Bool.false_ne_true, List.singleton_append] at hc
        rcases List.mem_cons.mp hc with h1 | h2
        · subst h1; rfl
        · exact ih true hrest c h2
    · rw [collapseAux_cons_nonsep b a rest (by simpa using hs)] at hc
      have ha' : isNameChar a = true ∨ isSepChar a = true := by simpa using ha
      rcases List.mem_cons.mp hc with h1 | h2
      · subst h1
        rcases ha' with h3 | h3
        · exact h3
        · exact absurd h3 hs
      · exact ih false hrest c h2

theorem collapseAux_noAdj (l : List Char) (b : Bool)
    (h : ∀ c ∈ l, c.toNat ≠ 45) :
    noAdjHyphens (collapseAux b l) = true ∧
      (∀ c rest, collapseAux b l = c :: rest → b = true → c.toNat ≠ 45) := by
  induction l generalizing b with
  | nil => exact ⟨rfl, fun c rest hcr => by simp [collapseAux] at hcr⟩
  | cons a tail ih =>
    have ha := h a (List.mem_cons_self a tail)
    have htail : ∀ c ∈ tail, c.toNat ≠ 45 := fun c hc => h c (List.mem_cons_of_mem a hc)
    have hrec := ih true htail
    have hrecf := ih false htail
    by_cases hs : isSepChar a = true
    · cases b with
      | true =>
        rw [collapseAux_cons_sep true a tail hs]
        simpa using hrec
      | false =>
        rw [collapseAux_cons_sep false a tail hs, if_neg Bool.false_ne_true,
          List.singleton_append]
        constructor
        · cases heq : collapseAux true tail with
          | nil => rfl
          | cons c rest =>
            rw [noAdjHyphens_cons2]
            have hc45 : c.toNat ≠ 45 := hrec.2 c rest heq rfl
            have hcb : (c == '-') = false :=
              beq_eq_false_iff_ne.mpr (fun hcc => hc45 (by rw [hcc]; rfl))
            have hn : noAdjHyphens (c :: rest) = true := heq ▸ hrec.1
            simp [hcb, hn]
        · intro c rest hcr hb
          simp at hb
    · have hsf : isSepChar a = false := by simpa using hs
      rw [collapseAux_cons_nonsep b a tail hsf]
      constructor
      · cases heq : collapseAux false tail with
        | nil => rfl
        | cons c rest =>
          rw [noAdjHyphens_cons2]
          have hab : (a == '-') = false :=
            beq_eq_false_iff_ne.mpr (fun hcc => ha (by rw [hcc]; rfl))
          have hn : noAdjHyphens (c :: rest) = true := heq ▸ hrecf.1
          simp [hab, hn]
      · intro c rest hcr _
        cases hcr
        exact ha

/-- C4 as written is refuted at pfx x and directory name a.b: the dot is kept
verbatim, so the result does not match the claimed character class. -/
theorem c4_counterexample :
    get_project_name "x" "a.b" = "x-a.b" ∧
      matchesNamePattern "x" (get_project_name "x" "a.b") = false := by
  constructor
  · rfl
  · rfl

/-- C4, amended: get_project_name always returns the exact concatenation of
the pfx argument, a hyphen, and the lowercased directory name with separator
runs collapsed to single hyphens.  The claimed anchored pattern additionally
holds whenever the directory name is nonempty and made of ASCII letters,
digits, hyphens, whitespace and underscores (other punctuation is kept
verbatim and escapes the claimed class); and the no-consecutive-hyphens
property of the collapsed part holds whenever the directory name itself
contains no hyphen. -/
theorem c4_amended (pfx cwdBase : String)
    (hgood : cwdBase.data.all goodChar = true)
    (hne : cwdBase.data ≠ []) :
    get_project_name pfx cwdBase =
        String.mk (pfx.data ++ '-' :: collapse (cwdBase.data.map pyToLower)) ∧
      matchesNamePattern pfx (get_project_name pfx cwdBase) = true ∧
      ((∀ c ∈ cwdBase.data, c.toNat ≠ 45) →
        noAdjHyphens (collapse (cwdBase.data.map pyToLower)) = true) := by
  refine ⟨rfl, ?_, ?_⟩
  · unfold matchesNamePattern get_project_name
    have hdata : (String.mk (pfx.data ++ '-' :: collapse (cwdBase.data.map pyToLower))).data
        = (pfx.data ++ ['-']) ++ collapse (cwdBase.data.map pyToLower) :=
      List.append_cons _ _ _
    have hlen : (pfx.data ++ ['-']).length = pfx.data.length + 1 := by
      simp
    rw [hdata, ← hlen, List.take_left, List.drop_left]
    have hnonempty : collapse (cwdBase.data.map pyToLower) ≠ [] := by
      cases hd : cwdBase.data with
      | nil => exact absurd hd hne
      | cons c rest =>
        simp only [List.map_cons]
        exact collapseAux_ne_nil _ _
    have hall : (collapse (cwdBase.data.map pyToLower)).all isNameChar = true := by
      rw [List.all_eq_true]
      refine collapseAux_all_nameChar _ false ?_
      intro c hc
      rcases List.mem_map.mp hc with ⟨d, hd, hdc⟩
      subst hdc
      exact pyToLower_good d (by rw [List.all_eq_true] at hgood; exact hgood d hd)
    simp [hnonempty, hall]
  · intro h45
    refine (collapseAux_noAdj _ false ?_).1
    intro c hc
    rcases List.mem_map.mp hc with ⟨d, hd, hdc⟩
    subst hdc
    exact pyToLower_hyphen d (h45 d hd)

/-- Witness for the amended C4 at pfx acme in directory My Project. -/
theorem c4_amended_witness :
    ("My Project" : String).data.all goodChar = true ∧
      get_project_name "acme" "My Project" = "acme-my-project" ∧
      matchesNamePattern "acme" (get_project_name "acme" "My Project") = true := by
  refine ⟨by decide, by rfl, ?_⟩
  exact (c4_amended "acme" "My Project" (by decide) (by decide)).2.1

/-- Content of requirements.txt as written by setup_virtual_environment. -/
def requirements_content : String := "# Project dependencies\n"

/-- Content of requirements-dev.txt as written by setup_virtual_environment. -/
def requirements_dev_content : String :=
  "# Development dependencies\npytest\nblack\nflake8\nmypy\n"

/-- The pip path chosen by the os.name branch. -/
def pip_path (osIsNT : Bool) : String :=
  if osIsNT then ".venv/Scripts/pip" else ".venv/bin/pip"

/-- setup_virtual_environment from the script: python3 -m venv, the two
requirement manifests, then pip upgrade and pip install, each with
check=True. -/
def setup_virtual_environment (env : Env) (projectName : String) (osIsNT : Bool)
    (w : World) : PyResult Unit :=
  let w := printLine ("Creating virtual environment for " ++ projectName ++ "...") w
  (runCheck env ["python3", "-m", "venv", ".venv"] w).bind fun _ w =>
  let w := writeFile "requirements.txt" requirements_content w
  let w := writeFile "requirements-dev.txt" requirements_dev_content w
  (runCheck env [pip_path osIsNT, "install", "--upgrade", "pip"] w).bind fun _ w =>
  (runCheck env [pip_path osIsNT, "install", "-r", "requirements-dev.txt"] w).bind fun _ w =>
  .ok () (printLine "Virtual environment created and dependencies installed." w)

/-- Content of the package marker file written by create_project_structure. -/
def init_py_content (projectName : String) : String :=
  "\"\"\"Main package for " ++ projectName ++ ".\"\"\"\n\n__version__ = \x270.1.0\x27\n"

/-- Content of the main module file written by create_project_structure. -/
def main_py_content (projectName : String) : String :=
  "\"\"\"Main module for " ++ projectName ++ ".\"\"\"\n\ndef main():\n    \"\"\"Main entry point.\"\"\"\n    print(\"Hello, world!\")\n\n\nif __name__ == \"__main__\":\n    main()\n"

/-- Content of the placeholder test file written by create_project_structure. -/
def test_main_content (projectName : String) : String :=
  "\"\"\"Tests for " ++ projectName ++ ".\"\"\"\n\nfrom " ++ hyphenToUnderscore projectName ++ ".main import main\n\ndef test_main():\n    \"\"\"Test the main function.\"\"\"\n    # This is a placeholder test\n    assert True\n"

/-- Content of setup.py written by create_project_structure. -/
def setup_py_content (projectName : String) : String :=
  "\"\"\"Package setup.\"\"\"\n\nfrom setuptools import setup, find_packages\n\nsetup(\n    name=\"" ++ projectName ++ "\",\n    version=\"0.1.0\",\n    packages=find_packages(where=\"src\"),\n    package_dir=\x7b\"\": \"src\"\x7d,\n    install_requires=[\n        # List your dependencies here\n    ],\n)\n"

/-- Content of pyproject.toml written by create_project_structure. -/
def pyproject_content : String :=
  "[build-system]\nrequires = [\"setuptools>=42\", \"wheel\"]\nbuild-backend = \"setuptools.build_meta\"\n\n[tool.black]\nline-length = 88\ntarget-version = [\"py38\"]\n"

/-- create_project_structure from the script: three makedirs calls with
exist_ok=True, then five files written unconditionally. -/
def create_project_structure (projectName : String) (w : World) : PyResult Unit :=
  let w := printLine ("Creating project structure for " ++ projectName ++ "...") w
  let packageDir := "src/" ++ hyphenToUnderscore projectName
  (makedirs packageDir true w).bind fun _ w =>
  (makedirs "tests" true w).bind fun _ w =>
  (makedirs "docs" true w).bind fun _ w =>
  let w := writeFile (packageDir ++ "/__init__.py") (init_py_content projectName) w
  let w := writeFile (packageDir ++ "/main.py") (main_py_content projectName) w
  let w := writeFile "tests/test_main.py" (test_main_content projectName) w
  let w := writeFile "setup.py" (setup_py_content projectName) w
  let w := writeFile "pyproject.toml" pyproject_content w
  .ok () (printLine "Project structure created." w)

/-- get_github_username from the script: ask gh for the login of the
authenticated user; an empty answer or a CalledProcessError falls back to the
placeholder.  A FileNotFoundError from an absent gh executable is NOT caught
by the except clause and propagates. -/
def get_github_username (env : Env) (w : World) : PyResult String :=
  match runCheck env ["gh", "api", "user", "--jq", ".login"] w with
  | .ok out w' =>
    let username := out.trim
    .ok (if username = "" then "yourusername" else username) w'
  | .raised (.calledProcess c n) w' =>
    let _ := (c, n)
    .ok "yourusername" w'
  | .raised e w' => .raised e w'

/-- Content of the .gitignore file written by setup_git. -/
def gitignore_content : String :=
  "# Python\n__pycache__/\n*.py[cod]\n*$py.class\n*.so\n.Python\nenv/\nbuild/\ndevelop-eggs/\ndist/\ndownloads/\neggs/\n.eggs/\nlib/\nlib64/\nparts/\nsdist/\nvar/\n*.egg-info/\n.installed.cfg\n*.egg\n\n# Virtual Environment\n.venv/\nvenv/\nENV/\n\n# IDE\n.idea/\n.vscode/\n*.swp\n*.swo\n\n# Testing\n.coverage\nhtmlcov/\n.pytest_cache/\n"

/-- Content of the README.md file written by setup_git: the clone URL and the
usage snippet reference the resolved or placeholder account identity. -/
def readme_content (username projectName : String) : String :=
  "# " ++ projectName ++ "\n\n## Description\n\nA brief description of the project.\n\n## Installation\n\n```bash\n# Clone the repository\ngit clone https://github.com/" ++ username ++ "/" ++ projectName ++ ".git\ncd " ++ projectName ++ "\n\n# Create and activate virtual environment\npython -m venv .venv\nsource .venv/bin/activate  # On Windows: .venv\\Scripts\\activate\n\n# Install dependencies\npip install -r requirements.txt\n```\n\n## Usage\n\n```python\nfrom " ++ hyphenToUnderscore projectName ++ ".main import main\n\nmain()\n```\n"

/-- The five manual-connection instruction lines; the script repeats these
print statements verbatim at its three fallback sites. -/
def manualBlock (username projectName : String) : List String :=
  ["1. Create a new repository named \x27" ++ projectName ++ "\x27 on GitHub",
   "2. Run the following commands to connect to GitHub:",
   "   git remote add origin https://github.com/" ++ username ++ "/" ++ projectName ++ ".git",
   "   git branch -M main",
   "   git push -u origin main"]

/-- Rendering of a CalledProcessError as interpolated by the script into its
error message (modelled loosely; the exact exception repr text is not
significant to any claim). -/
def cpeMessage (cmd : List String) (code : Nat) : String :=
  "Command " ++ toString cmd ++ " returned non-zero exit status " ++ toString code ++ "."

/-- setup_git from the script.  It resolves the account identity (only when
use_github is set), validates visibility, writes .gitignore and README.md,
runs git init, add and commit with check=True, and then handles the optional
remote: the outer try around the gh presence probe and the inner try around
repo creation plus push both catch only subprocess.CalledProcessError. -/
def setup_git (env : Env) (projectName : String) (useGithub : Bool)
    (visibility : String) (w : World) : PyResult Unit :=
  let w := printLine "Setting up Git repository..." w
  (if useGithub then get_github_username env w else .ok "yourusername" w).bind
    fun githubUsername w =>
  let visW : String × World :=
    if visibility = "public" ∨ visibility = "private" then (visibility, w)
    else ("private",
      printLine ("Warning: Invalid visibility \x27" ++ visibility ++ "\x27. Defaulting to \x27private\x27.") w)
  match visW with
  | (vis, w) =>
    let w := writeFile ".gitignore" gitignore_content w
    let w := writeFile "README.md" (readme_content githubUsername projectName) w
    (runCheck env ["git", "init"] w).bind fun _ w =>
    (runCheck env ["git", "add", "."] w).bind fun _ w =>
    (runCheck env ["git", "commit", "-m", "Initial commit with project structure"] w).bind fun _ w =>
    let remotePart : PyResult Unit :=
      if useGithub then
        match runCheck env ["gh", "--version"] w with
        | .raised (.calledProcess c n) w =>
          let _ := (c, n)
          .ok () (printLines
            (["GitHub CLI (gh) not found. Please install GitHub CLI to automate repository creation.",
              "You can install it from: https://cli.github.com/",
              "\nManual GitHub setup:"] ++ manualBlock githubUsername projectName) w)
        | .raised e w => .raised e w
        | .ok _ w =>
          let w := printLine ("Creating GitHub repository for " ++ projectName ++ "...") w
          match (runCheck env ["gh", "repo", "create", projectName, "--" ++ vis, "--source=.", "--remote=origin"] w).bind
              (fun _ w =>
                let w := printLine ("GitHub repository created: " ++ projectName) w
                (runCheck env ["git", "push", "-u", "origin", "main"] w).bind fun _ w =>
                .ok () (printLine "Initial commit pushed to GitHub." w)) with
          | .raised (.calledProcess c n) w =>
            .ok () (printLines
              (["Error creating GitHub repository: " ++ cpeMessage c n,
                "You can manually create and connect to GitHub repository:"] ++
                manualBlock githubUsername projectName) w)
          | .raised e w => .raised e w
          | .ok _ w => .ok () w
      else
        .ok () (printLines
          (["\nSkipping GitHub repository creation as requested.",
            "You can manually create and connect to GitHub repository:"] ++
            manualBlock githubUsername projectName) w)
    remotePart.bind fun _ w =>
    .ok () (printLine "\nGit repository initialized with initial commit." w)

/-- The prefix taken by main: sys.argv with index 1. -/
def parsed_pfx (argv : List String) : Option String := argv.get? 1

/-- use_github in main: the flag string is searched anywhere in sys.argv. -/
def parsed_use_github (argv : List String) : Bool := !(argv.contains "--no-github")

/-- visibility in main: the flag string is searched anywhere in sys.argv. -/
def parsed_visibility (argv : List String) : String :=
  if argv.contains "--public" then "public" else "private"

/-- main from the script (named py_main here because Lean reserves the name
main for an executable entry point).  argv includes the program name in
position 0; the base name of the current directory and the os.name test are
passed in.  The returned Nat is the process exit code of the normal paths: 1
for the usage error, 0 for completion; an uncaught exception is the raised
constructor. -/
def py_main (env : Env) (argv : List String) (cwdBase : String) (osIsNT : Bool)
    (w : World) : PyResult Nat :=
  if argv.length < 2 then
    .ok 1 (printLines ["Error: Missing prefix argument.",
      "Usage: ./setup_python_project.py <prefix> [--no-github] [--public]"] w)
  else
    let pfx := (parsed_pfx argv).getD ""
    let projectName := get_project_name pfx cwdBase
    let useGithub := parsed_use_github argv
    let visibility := parsed_visibility argv
    let w := printLine ("Setting up Python project: " ++ projectName) w
    (setup_virtual_environment env projectName osIsNT w).bind fun _ w =>
    (create_project_structure projectName w).bind fun _ w =>
    (setup_git env projectName useGithub visibility w).bind fun _ w =>
    let w := printLine ("\nProject setup complete for " ++ projectName ++ "!") w
    let w := printLine "Don\x27t forget to activate your virtual environment:" w
    let w := if osIsNT then printLine ".venv\\Scripts\\activate" w
      else printLine "source .venv/bin/activate" w
    .ok 0 w

/-- Whether a computation completed without an uncaught exception. -/
def PyResult.isOk {α : Type} : PyResult α → Bool
  | .ok _ _ => true
  | .raised _ _ => false

/-- The state reached, whether or not an exception escaped. -/
def PyResult.world {α : Type} : PyResult α → World
  | .ok _ w => w
  | .raised _ w => w

/-- The exception that escaped, if any. -/
def PyResult.err {α : Type} : PyResult α → Option PyErr
  | .ok _ _ => none
  | .raised e _ => some e

/-- The process exit code: the returned code on completion; a Python process
that dies of an uncaught exception exits with code 1. -/
def exitCodeOf : PyResult Nat → Nat
  | .ok c _ => c
  | .raised _ _ => 1

theorem makedirs_true (p : String) (w : World) :
    makedirs p true w = .ok () { w with fs := (parentChain p).foldl addDir w.fs } := by
  unfold makedirs
  rw [if_neg]
  simp

theorem ne_marker2 (a : String) (h : 21 < a.length) :
    ∀ x : String, (a ++ x = "   git branch -M main") = False := by
  intro x
  refine eq_false ?_
  intro e
  have hl := congrArg String.length e
  rw [String.length_append] at hl
  have hm : ("   git branch -M main" : String).length = 21 := rfl
  omega

theorem ne_marker3 (a : String) (h : 21 < a.length) :
    ∀ x y : String, (a ++ x ++ y = "   git branch -M main") = False := by
  intro x y
  refine eq_false ?_
  intro e
  have hl := congrArg String.length e
  rw [String.length_append, String.length_append] at hl
  have hm : ("   git branch -M main" : String).length = 21 := rfl
  omega

theorem pyBindNat_code {α : Type} (r : PyResult α) (f : α → World → PyResult Nat)
    (h : ∀ a w, (f a w).isOk = true → exitCodeOf (f a w) = 0) :
    (r.bind f).isOk = true → exitCodeOf (r.bind f) = 0 := by
  cases r with
  | ok a w => exact h a w
  | raised e w =>
    intro hok
    simp [PyResult.bind, PyResult.isOk] at hok

/-- Run environment in which every external command succeeds with empty
output. -/
def envAllOk : Env := fun _ => .exits 0 ""

/-- Run environment in which the gh executable is absent from PATH and every
other command succeeds. -/
def envGhAbsent : Env := fun c => if c.head? = some "gh" then .absent else .exits 0 ""

/-- Run environment in which only the push to the remote fails. -/
def envPushFails : Env := fun c =>
  if c = ["git", "push", "-u", "origin", "main"] then .exits 1 "" else .exits 0 ""

/-- Run environment in which only the remote repository creation fails. -/
def envCreateFails : Env := fun c =>
  if c.take 3 = ["gh", "repo", "create"] then .exits 1 "" else .exits 0 ""

/-- C1 is refuted on the code: in a run where remote creation succeeds and the
push exits non-zero, setup_git catches the push failure (the push statement
sits inside the same try block as the creation), prints the manual fallback
instructions, and returns normally instead of aborting. -/
theorem c1_counterexample :
    (setup_git envPushFails "acme-proj" true "private" w0).isOk = true ∧
    "   git branch -M main" ∈ (setup_git envPushFails "acme-proj" true "private" w0).world.prints := by
  exact ⟨rfl, by decide⟩

/-- C1, amended: for every run in which the remote repository creation command
succeeds and the subsequent push of the initial commit exits non-zero, the
push failure is caught by the same except clause as a creation failure:
setup_git prints the manual fallback instructions, finishes its final print,
and returns normally, so the failure is not fatal. -/
theorem c1_push_failure_caught (env : Env) (name vis : String) (k ec : Nat)
    (s1 s2 s3 sv su sc sp : String)
    (h1 : env ["git", "init"] = .exits 0 s1)
    (h2 : env ["git", "add", "."] = .exits 0 s2)
    (h3 : env ["git", "commit", "-m", "Initial commit with project structure"] = .exits 0 s3)
    (hver : env ["gh", "--version"] = .exits 0 sv)
    (huser : env ["gh", "api", "user", "--jq", ".login"] = .exits ec su)
    (hcreate : env ["gh", "repo", "create", name,
        "--" ++ (if vis = "public" ∨ vis = "private" then vis else "private"),
        "--source=.", "--remote=origin"] = .exits 0 sc)
    (hpush : env ["git", "push", "-u", "origin", "main"] = .exits (k + 1) sp) :
    (setup_git env name true vis w0).isOk = true ∧
    "   git branch -M main" ∈ (setup_git env name true vis w0).world.prints ∧
    "\nGit repository initialized with initial commit."
      ∈ (setup_git env name true vis w0).world.prints := by
  by_cases hvv : vis = "public" ∨ vis = "private"
  all_goals cases ec
  all_goals simp [hvv] at hcreate
  all_goals simp [setup_git, get_github_username, hvv, runCheck,
    PyResult.bind, printLine, printLines, writeFile, w0, PyResult.isOk, PyResult.world,
    manualBlock, h1, h2, h3, hver, huser, hcreate, hpush]

/-- Witness for the amended C1 in the concrete environment where only the
push fails. -/
theorem c1_witness :
    (setup_git envPushFails "acme-proj" true "private" w0).world.prints.count
        "\nGit repository initialized with initial commit." = 1 ∧
    (setup_git envPushFails "acme-proj" true "private" w0).isOk = true ∧
    "   git branch -M main" ∈ (setup_git envPushFails "acme-proj" true "private" w0).world.prints ∧
    "\nGit repository initialized with initial commit."
      ∈ (setup_git envPushFails "acme-proj" true "private" w0).world.prints := by
  refine ⟨by decide, ?_⟩
  exact c1_push_failure_caught envPushFails "acme-proj" "private" 0 0 "" "" "" "" "" "" ""
    (by decide) (by decide) (by decide) (by decide) (by decide) (by decide) (by decide)

/-- C2 is a code bug: when the gh executable is absent, subprocess.run raises
FileNotFoundError, which the except clauses (written for CalledProcessError
only) do not catch, so the identity query and the whole run abort instead of
degrading; the gh-not-found guidance is never printed. -/
theorem c2_gh_absent_fatal :
    (get_github_username envGhAbsent w0).err =
      some (.fileNotFound ["gh", "api", "user", "--jq", ".login"]) ∧
    (setup_git envGhAbsent "acme-proj" true "private" w0).isOk = false ∧
    (setup_git envGhAbsent "acme-proj" true "private" w0).err =
      some (.fileNotFound ["gh", "api", "user", "--jq", ".login"]) ∧
    ¬ "GitHub CLI (gh) not found. Please install GitHub CLI to automate repository creation."
        ∈ (setup_git envGhAbsent "acme-proj" true "private" w0).world.prints := by
  refine ⟨rfl, rfl, rfl, by decide⟩

set_option maxHeartbeats 1600000 in
/-- C3: for every run in which the hosting CLI is present but the remote
repository creation command exits non-zero, the run is not aborted: the
manual fallback instructions are printed, setup_git returns normally, and
main goes on to print the final success message, completing with exit code
zero. -/
theorem c3_create_failure_degrades (env : Env) (argv : List String) (cwdBase : String)
    (osIsNT : Bool) (k ec : Nat) (s1 s2 s3 s4 s5 s6 sv su sc : String)
    (hlen : ¬ argv.length < 2)
    (hng : ¬ "--no-github" ∈ argv)
    (h4 : env ["python3", "-m", "venv", ".venv"] = .exits 0 s4)
    (h5 : env [pip_path osIsNT, "install", "--upgrade", "pip"] = .exits 0 s5)
    (h6 : env [pip_path osIsNT, "install", "-r", "requirements-dev.txt"] = .exits 0 s6)
    (h1 : env ["git", "init"] = .exits 0 s1)
    (h2 : env ["git", "add", "."] = .exits 0 s2)
    (h3 : env ["git", "commit", "-m", "Initial commit with project structure"] = .exits 0 s3)
    (hver : env ["gh", "--version"] = .exits 0 sv)
    (huser : env ["gh", "api", "user", "--jq", ".login"] = .exits ec su)
    (hcreate : env ["gh", "repo", "create",
        get_project_name ((parsed_pfx argv).getD "") cwdBase,
        "--" ++ parsed_visibility argv, "--source=.", "--remote=origin"] = .exits (k + 1) sc) :
    (py_main env argv cwdBase osIsNT w0).isOk = true ∧
    exitCodeOf (py_main env argv cwdBase osIsNT w0) = 0 ∧
    ("\nProject setup complete for " ++ get_project_name ((parsed_pfx argv).getD "") cwdBase ++ "!")
      ∈ (py_main env argv cwdBase osIsNT w0).world.prints ∧
    "   git branch -M main" ∈ (py_main env argv cwdBase osIsNT w0).world.prints := by
  by_cases hp : "--public" ∈ argv
  all_goals cases osIsNT
  all_goals cases ec
  all_goals simp [pip_path] at h5 h6
  all_goals simp [parsed_pfx, parsed_visibility, hp] at hcreate
  all_goals simp [py_main, if_neg hlen, parsed_pfx, parsed_use_github, parsed_visibility,
    hng, hp, setup_virtual_environment, create_project_structure, setup_git,
    get_github_username, pip_path, makedirs_true, runCheck, PyResult.bind, printLine,
    printLines, writeFile, w0, PyResult.isOk, PyResult.world, exitCodeOf, manualBlock,
    h1, h2, h3, h4, h5, h6, hver, huser, hcreate]

/-- Witness for C3 in the concrete environment where only remote creation
fails. -/
theorem c3_witness :
    (py_main envCreateFails ["prog", "acme"] "proj" false w0).isOk = true ∧
    exitCodeOf (py_main envCreateFails ["prog", "acme"] "proj" false w0) = 0 ∧
    ("\nProject setup complete for " ++ get_project_name ((parsed_pfx ["prog", "acme"]).getD "") "proj" ++ "!")
      ∈ (py_main envCreateFails ["prog", "acme"] "proj" false w0).world.prints ∧
    "   git branch -M main" ∈ (py_main envCreateFails ["prog", "acme"] "proj" false w0).world.prints := by
  exact c3_create_failure_degrades envCreateFails ["prog", "acme"] "proj" false 0 0
    "" "" "" "" "" "" "" "" "" (by decide) (by decide) (by decide) (by decide) (by decide)
    (by decide) (by decide) (by decide) (by decide) (by decide) (by decide)

set_option maxHeartbeats 1600000 in
/-- C5: for every run invoked with the remote host disabled, no remote
repository creation command and no push command is attempted (no gh command
at all, and no git push), and the manual remote-setup instructions are
printed exactly once. -/
theorem c5_no_remote_attempt (env : Env) (argv : List String) (cwdBase : String)
    (osIsNT : Bool) (s1 s2 s3 s4 s5 s6 : String)
    (hlen : ¬ argv.length < 2)
    (hng : argv.contains "--no-github" = true)
    (h4 : env ["python3", "-m", "venv", ".venv"] = .exits 0 s4)
    (h5 : env [pip_path osIsNT, "install", "--upgrade", "pip"] = .exits 0 s5)
    (h6 : env [pip_path osIsNT, "install", "-r", "requirements-dev.txt"] = .exits 0 s6)
    (h1 : env ["git", "init"] = .exits 0 s1)
    (h2 : env ["git", "add", "."] = .exits 0 s2)
    (h3 : env ["git", "commit", "-m", "Initial commit with project structure"] = .exits 0 s3) :
    (py_main env argv cwdBase osIsNT w0).isOk = true ∧
    (∀ c ∈ (py_main env argv cwdBase osIsNT w0).world.cmds,
        c.head? ≠ some "gh" ∧ c ≠ ["git", "push", "-u", "origin", "main"]) ∧
    ((py_main env argv cwdBase osIsNT w0).world.prints.count "   git branch -M main") = 1 := by
  have hng2 : "--no-github" ∈ argv := by
    simpa using hng
  by_cases hp : "--public" ∈ argv
  all_goals cases osIsNT
  all_goals simp [pip_path] at h5 h6
  all_goals simp [py_main, if_neg hlen, parsed_pfx, parsed_use_github, parsed_visibility,
    hng2, hp, setup_virtual_environment, create_project_structure, setup_git, pip_path,
    makedirs_true, runCheck, PyResult.bind, printLine, printLines, writeFile, w0,
    PyResult.isOk, PyResult.world, manualBlock, h1, h2, h3, h4, h5, h6]
  all_goals simp [List.count_cons, beq_iff_eq,
    ne_marker2 "Setting up Python project: " (by decide),
    ne_marker3 "Creating virtual environment for " (by decide),
    ne_marker3 "Creating project structure for " (by decide),
    ne_marker3 "1. Create a new repository named \x27" (by decide),
    ne_marker3 "   git remote add origin https://github.com/yourusername/" (by decide),
    ne_marker3 "\nProject setup complete for " (by decide)]

/-- Witness for C5 with the flag as second argument in an otherwise successful
environment. -/
theorem c5_witness :
    (py_main envAllOk ["prog", "acme", "--no-github"] "proj" false w0).isOk = true ∧
    ((py_main envAllOk ["prog", "acme", "--no-github"] "proj" false w0).world.prints.count
        "   git branch -M main") = 1 := by
  have h := c5_no_remote_attempt envAllOk ["prog", "acme", "--no-github"] "proj" false
    "" "" "" "" "" "" (by decide) (by decide) (by decide) (by decide) (by decide)
    (by decide) (by decide) (by decide)
  exact ⟨h.1, h.2.2⟩

/-- C6: for every visibility value other than public or private, setup_git
prints the warning, proceeds with private (the creation command it attempts
carries the private flag), and the run continues to completion. -/
theorem c6_invalid_visibility (env : Env) (name vis : String) (ec : Nat)
    (s1 s2 s3 sv su sc sp : String)
    (hv1 : vis ≠ "public") (hv2 : vis ≠ "private")
    (h1 : env ["git", "init"] = .exits 0 s1)
    (h2 : env ["git", "add", "."] = .exits 0 s2)
    (h3 : env ["git", "commit", "-m", "Initial commit with project structure"] = .exits 0 s3)
    (hver : env ["gh", "--version"] = .exits 0 sv)
    (huser : env ["gh", "api", "user", "--jq", ".login"] = .exits ec su)
    (hcreate : env ["gh", "repo", "create", name, "--private", "--source=.", "--remote=origin"] = .exits 0 sc)
    (hpush : env ["git", "push", "-u", "origin", "main"] = .exits 0 sp) :
    (setup_git env name true vis w0).isOk = true ∧
    ("Warning: Invalid visibility \x27" ++ vis ++ "\x27. Defaulting to \x27private\x27.")
      ∈ (setup_git env name true vis w0).world.prints ∧
    ["gh", "repo", "create", name, "--private", "--source=.", "--remote=origin"]
      ∈ (setup_git env name true vis w0).world.cmds := by
  have hvv : ¬ (vis = "public" ∨ vis = "private") := by
    intro h
    rcases h with h | h
    · exact hv1 h
    · exact hv2 h
  cases ec
  all_goals simp [setup_git, get_github_username, hvv, runCheck, PyResult.bind, printLine,
    printLines, writeFile, w0, PyResult.isOk, PyResult.world, manualBlock,
    h1, h2, h3, hver, huser, hcreate, hpush]

/-- Witness for C6 at the visibility value internal. -/
theorem c6_witness :
    (setup_git envAllOk "acme-proj" true "internal" w0).isOk = true ∧
    ("Warning: Invalid visibility \x27" ++ "internal" ++ "\x27. Defaulting to \x27private\x27.")
      ∈ (setup_git envAllOk "acme-proj" true "internal" w0).world.prints ∧
    ["gh", "repo", "create", "acme-proj", "--private", "--source=.", "--remote=origin"]
      ∈ (setup_git envAllOk "acme-proj" true "internal" w0).world.cmds := by
  exact c6_invalid_visibility envAllOk "acme-proj" "internal" 0 "" "" "" "" "" "" ""
    (by decide) (by decide) (by decide) (by decide) (by decide) (by decide) (by decide)
    (by decide) (by decide)

/-- C7: invoked with no argument after the program name, main prints the usage
message and stops with exit code 1 before any command or file operation; and
whenever a run with an argument completes without an uncaught exception, its
exit code is zero, including completion through the degraded paths. -/
theorem c7_exit_codes :
    (∀ (env : Env) (argv : List String) (cwdBase : String) (osIsNT : Bool),
      argv.length < 2 →
        py_main env argv cwdBase osIsNT w0 =
          .ok 1 (printLines ["Error: Missing prefix argument.",
            "Usage: ./setup_python_project.py <prefix> [--no-github] [--public]"] w0)) ∧
    (∀ (env : Env) (argv : List String) (cwdBase : String) (osIsNT : Bool),
      ¬ argv.length < 2 → (py_main env argv cwdBase osIsNT w0).isOk = true →
        exitCodeOf (py_main env argv cwdBase osIsNT w0) = 0) := by
  constructor
  · intro env argv cwdBase osIsNT hlt
    unfold py_main
    rw [if_pos hlt]
  · intro env argv cwdBase osIsNT hlen
    simp only [py_main, if_neg hlen]
    refine pyBindNat_code _ _ ?_
    intro a w
    refine pyBindNat_code _ _ ?_
    intro a w
    refine pyBindNat_code _ _ ?_
    intro a w
    intro _
    rfl

/-- Witness for C7: the usage path at an empty argument list and a completed
run with a present argument. -/
theorem c7_witness :
    (py_main envAllOk ["prog"] "proj" false w0 =
      .ok 1 (printLines ["Error: Missing prefix argument.",
        "Usage: ./setup_python_project.py <prefix> [--no-github] [--public]"] w0)) ∧
    exitCodeOf (py_main envAllOk ["prog", "acme"] "proj" false w0) = 0 := by
  exact ⟨c7_exit_codes.1 envAllOk ["prog"] "proj" false (by decide),
    c7_exit_codes.2 envAllOk ["prog", "acme"] "proj" false (by decide) rfl⟩

set_option maxHeartbeats 1600000 in
/-- C9: when the first argument after the program name is itself a flag
string, main takes it as the name pfx unconditionally: with the flag string
as argument 1 the derived project name starts from it, while the same
occurrence still activates the flag (the remote host is disabled for the
no-github string, the visibility turns public for the public string). -/
theorem c9_flag_string_as_first_arg (env : Env) (prog : String) (rest : List String)
    (cwdBase : String) (osIsNT : Bool) (s1 s2 s3 s4 s5 s6 : String)
    (h4 : env ["python3", "-m", "venv", ".venv"] = .exits 0 s4)
    (h5 : env [pip_path osIsNT, "install", "--upgrade", "pip"] = .exits 0 s5)
    (h6 : env [pip_path osIsNT, "install", "-r", "requirements-dev.txt"] = .exits 0 s6)
    (h1 : env ["git", "init"] = .exits 0 s1)
    (h2 : env ["git", "add", "."] = .exits 0 s2)
    (h3 : env ["git", "commit", "-m", "Initial commit with project structure"] = .exits 0 s3) :
    parsed_pfx (prog :: "--no-github" :: rest) = some "--no-github" ∧
    parsed_use_github (prog :: "--no-github" :: rest) = false ∧
    (∀ p r, parsed_pfx (p :: "--public" :: r) = some "--public" ∧
      parsed_visibility (p :: "--public" :: r) = "public") ∧
    (py_main env (prog :: "--no-github" :: rest) cwdBase osIsNT w0).isOk = true ∧
    ("Setting up Python project: " ++ get_project_name "--no-github" cwdBase)
      ∈ (py_main env (prog :: "--no-github" :: rest) cwdBase osIsNT w0).world.prints ∧
    (∀ c ∈ (py_main env (prog :: "--no-github" :: rest) cwdBase osIsNT w0).world.cmds,
      c.head? ≠ some "gh") := by
  refine ⟨by simp [parsed_pfx], by simp [parsed_use_github],
    fun p r => ⟨by simp [parsed_pfx], by simp [parsed_visibility]⟩, ?_⟩
  have hng2 : "--no-github" ∈ prog :: "--no-github" :: rest := by simp
  have hlen2 : ∀ n : Nat, ¬ (n + 1 + 1 < 2) := by omega
  by_cases hp : "--public" ∈ prog :: "--no-github" :: rest
  all_goals cases osIsNT
  all_goals simp [pip_path] at h5 h6
  all_goals simp [py_main, hlen2, parsed_pfx, parsed_use_github, parsed_visibility,
    hng2, hp, setup_virtual_environment, create_project_structure, setup_git, pip_path,
    makedirs_true, runCheck, PyResult.bind, printLine, printLines, writeFile, w0,
    PyResult.isOk, PyResult.world, manualBlock, h1, h2, h3, h4, h5, h6]

/-- Witness for C9 with the no-github flag string as the only argument. -/
theorem c9_witness :
    parsed_pfx ["prog", "--no-github"] = some "--no-github" ∧
    parsed_use_github ["prog", "--no-github"] = false ∧
    parsed_pfx ["prog", "--public"] = some "--public" ∧
    parsed_visibility ["prog", "--public"] = "public" ∧
    (py_main envAllOk ["prog", "--no-github"] "proj" false w0).isOk = true ∧
    ("Setting up Python project: " ++ get_project_name "--no-github" "proj")
      ∈ (py_main envAllOk ["prog", "--no-github"] "proj" false w0).world.prints := by
  have h := c9_flag_string_as_first_arg envAllOk "prog" [] "proj" false "" "" "" "" "" ""
    (by decide) (by decide) (by decide) (by decide) (by decide) (by decide)
  exact ⟨h.1, h.2.1, (h.2.2.1 "prog" []).1, (h.2.2.1 "prog" []).2,
    h.2.2.2.1, h.2.2.2.2.1⟩

/-- C10: with the remote host disabled, setup_git never launches the hosting
CLI at all, and the placeholder identity is used both in the readme clone
instructions and in the printed manual remote-add line. -/
theorem c10_placeholder_identity (env : Env) (name vis : String) (s1 s2 s3 : String)
    (h1 : env ["git", "init"] = .exits 0 s1)
    (h2 : env ["git", "add", "."] = .exits 0 s2)
    (h3 : env ["git", "commit", "-m", "Initial commit with project structure"] = .exits 0 s3) :
    (setup_git env name false vis w0).isOk = true ∧
    (∀ c ∈ (setup_git env name false vis w0).world.cmds, c.head? ≠ some "gh") ∧
    (setup_git env name false vis w0).world.fs.files "README.md" =
      some (readme_content "yourusername" name) ∧
    ("   git remote add origin https://github.com/yourusername/" ++ name ++ ".git")
      ∈ (setup_git env name false vis w0).world.prints := by
  by_cases hvv : vis = "public" ∨ vis = "private"
  all_goals simp [setup_git, hvv, runCheck, PyResult.bind, printLine,
    printLines, writeFile, w0, PyResult.isOk, PyResult.world, manualBlock,
    h1, h2, h3]

/-- Witness for C10 at a concrete run. -/
theorem c10_witness :
    (setup_git envAllOk "acme-proj" false "private" w0).isOk = true ∧
    (setup_git envAllOk "acme-proj" false "private" w0).world.fs.files "README.md" =
      some (readme_content "yourusername" "acme-proj") ∧
    ("   git remote add origin https://github.com/yourusername/" ++ "acme-proj" ++ ".git")
      ∈ (setup_git envAllOk "acme-proj" false "private" w0).world.prints := by
  have h := c10_placeholder_identity envAllOk "acme-proj" "private" "" "" ""
    (by decide) (by decide) (by decide)
  exact ⟨h.1, h.2.2.1, h.2.2.2⟩

theorem addDir_files (fs : FS) (d : String) : (addDir fs d).files = fs.files := by
  unfold addDir
  split <;> rfl

theorem foldl_addDir_files (ds : List String) (fs : FS) :
    (ds.foldl addDir fs).files = fs.files := by
  induction ds generalizing fs with
  | nil => rfl
  | cons d rest ih => rw [List.foldl_cons, ih, addDir_files]

theorem mem_addDir (fs : FS) (d x : String) (h : x ∈ fs.dirs) : x ∈ (addDir fs d).dirs := by
  unfold addDir
  split
  · exact h
  · simp [h]

theorem mem_addDir_self (fs : FS) (d : String) : d ∈ (addDir fs d).dirs := by
  unfold addDir
  split
  · assumption
  · simp

theorem foldl_addDir_mem (ds : List String) (fs : FS) (x : String) (h : x ∈ fs.dirs) :
    x ∈ (ds.foldl addDir fs).dirs := by
  induction ds generalizing fs with
  | nil => exact h
  | cons d rest ih =>
    rw [List.foldl_cons]
    exact ih (addDir fs d) (mem_addDir fs d x h)

theorem foldl_addDir_self (ds : List String) (fs : FS) (x : String) (h : x ∈ ds) :
    x ∈ (ds.foldl addDir fs).dirs := by
  induction ds generalizing fs with
  | nil => cases h
  | cons d rest ih =>
    rw [List.foldl_cons]
    rcases List.mem_cons.mp h with h1 | h2
    · subst h1
      exact foldl_addDir_mem rest (addDir fs x) x (mem_addDir_self fs x)
    · exact ih (addDir fs d) h2

theorem addDir_noop (fs : FS) (d : String) (h : d ∈ fs.dirs) : addDir fs d = fs := by
  unfold addDir
  rw [if_pos h]

theorem foldl_addDir_noop (ds : List String) (fs : FS) (h : ∀ d ∈ ds, d ∈ fs.dirs) :
    ds.foldl addDir fs = fs := by
  induction ds with
  | nil => rfl
  | cons d rest ih =>
    rw [List.foldl_cons, addDir_noop fs d (h d (List.mem_cons_self d rest))]
    exact ih (fun d hd => h d (List.mem_cons_of_mem _ hd))

theorem second_fold_noop (A B C : List String) (base : FS) (f : String → Option String) :
    C.foldl addDir (B.foldl addDir (A.foldl addDir
      (FS.mk (C.foldl addDir (B.foldl addDir (A.foldl addDir base))).dirs f))) =
    FS.mk (C.foldl addDir (B.foldl addDir (A.foldl addDir base))).dirs f := by
  have hA : ∀ d ∈ A,
      d ∈ (FS.mk (C.foldl addDir (B.foldl addDir (A.foldl addDir base))).dirs f).dirs := by
    intro d hd
    exact foldl_addDir_mem _ _ d (foldl_addDir_mem _ _ d (foldl_addDir_self _ _ d hd))
  rw [foldl_addDir_noop A _ hA]
  have hB : ∀ d ∈ B,
      d ∈ (FS.mk (C.foldl addDir (B.foldl addDir (A.foldl addDir base))).dirs f).dirs := by
    intro d hd
    exact foldl_addDir_mem _ _ d (foldl_addDir_self _ _ d hd)
  rw [foldl_addDir_noop B _ hB]
  have hC : ∀ d ∈ C,
      d ∈ (FS.mk (C.foldl addDir (B.foldl addDir (A.foldl addDir base))).dirs f).dirs := by
    intro d hd
    exact foldl_addDir_self _ _ d hd
  rw [foldl_addDir_noop C _ hC]

theorem create_run (name : String) (w : World) :
    create_project_structure name w = .ok ()
      { fs :=
          { dirs := ((parentChain "docs").foldl addDir
              ((parentChain "tests").foldl addDir
                ((parentChain ("src/" ++ hyphenToUnderscore name)).foldl addDir w.fs))).dirs,
            files := fun q =>
              if q = "pyproject.toml" then some pyproject_content
              else if q = "setup.py" then some (setup_py_content name)
              else if q = "tests/test_main.py" then some (test_main_content name)
              else if q = "src/" ++ hyphenToUnderscore name ++ "/main.py" then some (main_py_content name)
              else if q = "src/" ++ hyphenToUnderscore name ++ "/__init__.py" then some (init_py_content name)
              else w.fs.files q },
        prints := w.prints ++ ["Creating project structure for " ++ name ++ "...",
          "Project structure created."],
        cmds := w.cmds } := by
  simp [create_project_structure, makedirs_true, printLine, writeFile, PyResult.bind,
    foldl_addDir_files]

/-- C8: running create_project_structure twice in the same state is equivalent
to running it once: the first run never raises (directory creation passes
exist_ok), the second run over the resulting state never raises either, and
the filesystem after the second run equals the filesystem after the first
(every generated file is rewritten with identical contents, every directory
creation is a no-op). -/
theorem c8_idempotent (name : String) (w : World) :
    (create_project_structure name w).isOk = true ∧
    (create_project_structure name (create_project_structure name w).world).isOk = true ∧
    (create_project_structure name (create_project_structure name w).world).world.fs =
      (create_project_structure name w).world.fs := by
  rw [create_run name w]
  simp only [PyResult.world]
  rw [create_run name]
  simp only [PyResult.world, PyResult.isOk]
  refine ⟨trivial, trivial, ?_⟩
  rw [second_fold_noop]
  congr 1
  funext q
  by_cases q1 : q = "pyproject.toml"
  · simp [q1]
  by_cases q2 : q = "setup.py"
  · simp [q1, q2]
  by_cases q3 : q = "tests/test_main.py"
  · simp [q1, q2, q3]
  by_cases q4 : q = "src/" ++ hyphenToUnderscore name ++ "/main.py"
  · simp [q1, q2, q3, q4]
  by_cases q5 : q = "src/" ++ hyphenToUnderscore name ++ "/__init__.py"
  · simp [q1, q2, q3, q4, q5]
  simp [q1, q2, q3, q4, q5]
